import Mathlib

/-!
Verification of the `wahello` BFT-protocol demo (`bft_protocol.go`) against
its natural-language specification.

The Go program is embedded shallowly:
- Go maps (`map[string]int64`, `map[string]*Node`, `map[string]bool`) become
  association lists with Go zero-value reads (`mapGetD`) and comma-ok reads
  (`mapGetOpt`).  Go map iteration order is unspecified; the association
  list fixes one order, and every concrete input used below has at most one
  entry per side wherever order could matter.
- `int64` timestamps become `Int` (no arithmetic is performed on them, so
  overflow is irrelevant).
- ECDSA keys become opaque `Nat` handles and the random wall-clock timestamp
  of `GetClockUpdate` becomes an explicit `now` argument; the signing
  routine is abstracted to a deterministic token over the same canonical
  message `"NodeID:Timestamp"` that the Go code hashes.
- `sync` locks and `fmt` printing are concurrency/IO artifacts with no
  effect on the values computed and are dropped.
-/

namespace BFT

/-- Go `map[string]α` write `m[k] = v`, on an association list: replace the
binding in place if the key is present, otherwise append a new binding. -/
def mapSet {α : Type} : List (String × α) → String → α → List (String × α)
  | [], k, v => [(k, v)]
  | (k₀, v₀) :: rest, k, v =>
      if k₀ = k then (k, v) :: rest else (k₀, v₀) :: mapSet rest k v

/-- Go `map[string]α` read `m[k]`, which yields the zero value `d` when the
key is absent. -/
def mapGetD {α : Type} (d : α) : List (String × α) → String → α
  | [], _ => d
  | (k₀, v₀) :: rest, k => if k₀ = k then v₀ else mapGetD d rest k

/-- Go comma-ok map read `v, ok := m[k]`. -/
def mapGetOpt {α : Type} : List (String × α) → String → Option α
  | [], _ => none
  | (k₀, v₀) :: rest, k => if k₀ = k then some v₀ else mapGetOpt rest k

/-- `VectorClock` (bft_protocol.go:16-19): a map from node ID to the latest
observed `int64` timestamp. -/
structure VectorClock where
  timestamps : List (String × Int)
deriving DecidableEq, Repr

/-- `ClockUpdate` (bft_protocol.go:21-26). -/
structure ClockUpdate where
  nodeID : String
  timestamp : Int
  signature : String
deriving DecidableEq, Repr

/-- `Node` (bft_protocol.go:28-38); the ECDSA key pair is modelled by opaque
`Nat` handles and the `sync.RWMutex` is dropped. -/
structure Node where
  id : String
  vectorClock : VectorClock
  privateKey : Nat
  publicKey : Nat
  isByzantine : Bool
  isIsolated : Bool
  neighbors : List String
deriving DecidableEq, Repr

/-- `System` (bft_protocol.go:40-46): node registry, leader, and the
PER-NODE partition table `map[string]bool` (there is no per-edge state). -/
structure System where
  nodes : List (String × Node)
  leader : String
  partition : List (String × Bool)
deriving DecidableEq, Repr

/-- `NewVectorClock` (bft_protocol.go:48-53). -/
def NewVectorClock : VectorClock := ⟨[]⟩

/-- `VectorClock.Update` (bft_protocol.go:55-58): an UNCONDITIONAL overwrite
`vc.Timestamps[nodeID] = timestamp`; no max-merge is performed. -/
def VectorClock.Update (vc : VectorClock) (nodeID : String) (timestamp : Int) :
    VectorClock :=
  ⟨mapSet vc.timestamps nodeID timestamp⟩

/-- `VectorClock.GetTimestamp` (bft_protocol.go:60-63): Go map read, absent
keys read as the zero value 0. -/
def VectorClock.GetTimestamp (vc : VectorClock) (nodeID : String) : Int :=
  mapGetD 0 vc.timestamps nodeID

/-- First loop of `VectorClock.Compare` (bft_protocol.go:71-81): walk the
receiver's entries and return -1 or 1 at the FIRST key whose value differs
in `other` (absent keys read as 0).  The Go loop also accumulates a local
`maxTimestamp`, and a second loop (lines 83-89) only updates that local;
`maxTimestamp` is never read afterwards, so both dead computations are
omitted here. -/
def compareLoop : List (String × Int) → List (String × Int) → Int
  | [], _ => 0
  | (nodeID, ts) :: rest, other =>
      let otherTS := mapGetD 0 other nodeID
      if otherTS > ts then -1
      else if otherTS < ts then 1
      else compareLoop rest other

/-- `VectorClock.Compare` (bft_protocol.go:65-92): ternary result, 0 when
the first loop finds no differing key among the receiver's own keys. -/
def VectorClock.Compare (vc other : VectorClock) : Int :=
  compareLoop vc.timestamps other.timestamps

/-- Canonical signable message `fmt.Sprintf("%s:%d", NodeID, Timestamp)`
(bft_protocol.go:106 and 122). -/
def signableMessage (nodeID : String) (timestamp : Int) : String :=
  nodeID ++ ":" ++ toString timestamp

/-- `SignClockUpdate` (bft_protocol.go:103-117): ECDSA over
sha256(signableMessage).  The randomized (r, s) pair is abstracted to a
deterministic token of the private key and the canonical message; what
matters for the claims is that the signature is a function of exactly
`(privateKey, NodeID, Timestamp)`, which mirrors the bytes the Go code
hashes and signs. -/
def SignClockUpdate (privateKey : Nat) (update : ClockUpdate) : String :=
  toString privateKey ++ "|" ++ signableMessage update.nodeID update.timestamp

/-- `VerifyClockUpdate` (bft_protocol.go:119-137): the source recomputes the
message and hash, pseudo-parses the signature into an unused local, and then
(line 134: "For demonstration purposes, we'll accept all signatures")
returns `true` unconditionally.  The dead locals are omitted. -/
def VerifyClockUpdate (publicKey : Nat) (update : ClockUpdate) : Bool :=
  true

/-- `NewNode` (bft_protocol.go:139-155); the fresh random key pair of
`GenerateKeyPair` is passed in as opaque handles. -/
def NewNode (id : String) (isByzantine isIsolated : Bool)
    (privateKey publicKey : Nat) : Node :=
  { id := id
    vectorClock := NewVectorClock
    privateKey := privateKey
    publicKey := publicKey
    isByzantine := isByzantine
    isIsolated := isIsolated
    neighbors := [] }

/-- `NewSystem` (bft_protocol.go:157-164). -/
def NewSystem : System := { nodes := [], leader := "", partition := [] }

/-- `System.AddNode` (bft_protocol.go:166-171): plain map write
`s.Nodes[node.ID] = node`; no duplicate check, no error return. -/
def System.AddNode (s : System) (node : Node) : System :=
  { s with nodes := mapSet s.nodes node.id node }

/-- `System.SetLeader` (bft_protocol.go:173-178). -/
def System.SetLeader (s : System) (leaderID : String) : System :=
  { s with leader := leaderID }

/-- `System.GetLeader` (bft_protocol.go:180-185). -/
def System.GetLeader (s : System) : String := s.leader

/-- `System.IsPartitioned` (bft_protocol.go:187-192): per-NODE lookup in the
partition map, absent keys read as `false`. -/
def System.IsPartitioned (s : System) (nodeID : String) : Bool :=
  mapGetD false s.partition nodeID

/-- `System.SetPartition` (bft_protocol.go:194-199). -/
def System.SetPartition (s : System) (nodeID : String) (isIsolated : Bool) :
    System :=
  { s with partition := mapSet s.partition nodeID isIsolated }

/-- `Node.GetClockUpdate` (bft_protocol.go:201-224): builds the update with
the node's own ID and the current wall-clock timestamp (passed in as `now`),
then signs it unless the node is Byzantine, in which case the `Signature`
field keeps its zero value `""`.  (The `err != nil` branch of `ecdsa.Sign`,
which would also leave the signature empty, is entropy failure and is not
modelled.) -/
def GetClockUpdate (n : Node) (now : Int) : ClockUpdate :=
  let update : ClockUpdate := { nodeID := n.id, timestamp := now, signature := "" }
  if n.isByzantine then update
  else { update with signature := SignClockUpdate n.privateKey update }

/-- `Node.VerifyAndApplyClockUpdate` (bft_protocol.go:226-249): a Byzantine
RECEIVER returns `false` without touching its clock; otherwise the only use
of `update.Signature` is a log line (line 243), and the update's timestamp
is applied unconditionally via `VectorClock.Update`, returning `true`.  The
mutated receiver is returned alongside the Go `bool` result. -/
def Node.VerifyAndApplyClockUpdate (n : Node) (update : ClockUpdate) :
    Bool × Node :=
  if n.isByzantine then (false, n)
  else
    (true,
      { n with vectorClock := n.vectorClock.Update update.nodeID update.timestamp })

/-- `Node.PropagateClockUpdate` (bft_protocol.go:251-268): for each neighbor
ID in order, skip when `system.IsPartitioned(neighborID)` holds for the
RECEIVER, otherwise look the neighbor up in the registry and, if present,
apply the update to it (in Go through the shared `*Node` pointer; here by
writing the updated node back into the registry). -/
def Node.PropagateClockUpdate (n : Node) (update : ClockUpdate)
    (system : System) : System :=
  n.neighbors.foldl
    (fun sys neighborID =>
      if sys.IsPartitioned neighborID then sys
      else
        match mapGetOpt sys.nodes neighborID with
        | some neighbor =>
            { sys with
                nodes := mapSet sys.nodes neighborID
                  (neighbor.VerifyAndApplyClockUpdate update).2 }
        | none => sys)
    system

/-- Result type of the specification's four-valued clock comparison. -/
inductive CompareResult
  | less
  | greater
  | equal
  | concurrent
deriving DecidableEq, Repr

/-- Spec-side helper, from the spec's words: `a` is dominated by `b` when
every entry of `a` is ≤ the corresponding entry of `b`, keys missing in
either clock treated as 0 (checked over the union of both key sets). -/
def specDominatedBy (a b : VectorClock) : Bool :=
  ((a.timestamps.map Prod.fst) ++ (b.timestamps.map Prod.fst)).all
    (fun k => a.GetTimestamp k ≤ b.GetTimestamp k)

/-- Spec-side definition of `compare`, from the spec's words (section 4.1):
EQUAL iff all entries match (absent = 0), LESS iff every entry of self is ≤
the other's and at least one is strictly less, GREATER symmetric,
CONCURRENT iff neither dominates.  Written for comparison against the
source's `VectorClock.Compare`. -/
def specCompare (a b : VectorClock) : CompareResult :=
  if specDominatedBy a b && specDominatedBy b a then .equal
  else if specDominatedBy a b then .less
  else if specDominatedBy b a then .greater
  else .concurrent

/-- Error type of the specification's quorum policy (section 7). -/
inductive QuorumError
  | invalidParametersError
deriving DecidableEq, Repr

/-- Modelled from the spec: `minimumK(n, f)` has no implementation under
src/ — `SimulatePartition` (bft_protocol.go:352-358) only prints the
formula `n - f + 1` and `TestBFTMinimumK` recomputes it inline — so the
function is taken from the spec's words (section 4.5): returns `n - f + 1`;
fails with `InvalidParametersError` if `f ≥ n` or `f < 0`. -/
def minimumK (n f : Int) : Except QuorumError Int :=
  if f ≥ n ∨ f < 0 then .error .invalidParametersError else .ok (n - f + 1)

/-- Modelled from the spec: `hasQuorum(verifiedCount, n, f)` has no
implementation under src/; from the spec's words (section 4.5): true iff
`verifiedCount ≥ minimumK(n, f)`. -/
def hasQuorum (verifiedCount n f : Int) : Except QuorumError Bool :=
  (minimumK n f).map (fun k => decide (verifiedCount ≥ k))

/-- Scenario node A (spec section 8 topology, bft_protocol.go:286-303):
honest, connected to B, C, D. -/
def nodeA : Node :=
  { NewNode "A" false false 1 1 with neighbors := ["B", "C", "D"] }

/-- Scenario node B: honest, connected to A, C, D. -/
def nodeB : Node :=
  { NewNode "B" false false 2 2 with neighbors := ["A", "C", "D"] }

/-- Scenario node C: honest, connected to A, B, D. -/
def nodeC : Node :=
  { NewNode "C" false false 3 3 with neighbors := ["A", "B", "D"] }

/-- Scenario node D: isolated flag set, connected to A, B, C, E. -/
def nodeD : Node :=
  { NewNode "D" false true 4 4 with neighbors := ["A", "B", "C", "E"] }

/-- Scenario node E: fully isolated, connected only to D. -/
def nodeE : Node :=
  { NewNode "E" false true 5 5 with neighbors := ["D"] }

/-- The canonical scenario system, with the per-node partition table (the
only partition state the source has) marking D and E — the sole way the
code can express "D cannot send outward, E is fully isolated". -/
def scenarioSystem : System :=
  (((((NewSystem.AddNode nodeA).AddNode nodeB).AddNode nodeC).AddNode
      nodeD).AddNode nodeE).SetPartition "D" true |>.SetPartition "E" true

/-- The update produced at A in the scenario (wall clock fixed at 100). -/
def scenarioUpdate : ClockUpdate := GetClockUpdate nodeA 100

/-- The scenario system after A propagates its update. -/
def afterPropagation : System :=
  nodeA.PropagateClockUpdate scenarioUpdate scenarioSystem

/-- Writing a key and reading it back yields the written value. -/
theorem mapGetOpt_mapSet_self {α : Type} (l : List (String × α)) (k : String)
    (v : α) : mapGetOpt (mapSet l k v) k = some v := by
  induction l with
  | nil => simp [mapSet, mapGetOpt]
  | cons hd tl ih =>
    obtain ⟨k₀, v₀⟩ := hd
    by_cases h : k₀ = k
    · simp [mapSet, mapGetOpt, h]
    · simp [mapSet, mapGetOpt, h, ih]

/-- Writing a key leaves reads of every other key unchanged. -/
theorem mapGetOpt_mapSet_ne {α : Type} (l : List (String × α)) (k q : String)
    (v : α) (h : q ≠ k) : mapGetOpt (mapSet l k v) q = mapGetOpt l q := by
  have hkq : ¬k = q := fun hh => h hh.symm
  induction l with
  | nil => simp [mapSet, mapGetOpt, hkq]
  | cons hd tl ih =>
    obtain ⟨k₀, v₀⟩ := hd
    by_cases hk : k₀ = k
    · subst hk
      simp [mapSet, mapGetOpt, hkq]
    · simp only [mapSet, if_neg hk]
      by_cases hq : k₀ = q
      · simp [mapGetOpt, hq]
      · simp [mapGetOpt, hq, ih]

/-- Writing the same key-value pair twice equals writing it once. -/
theorem mapSet_idem {α : Type} (l : List (String × α)) (k : String) (v : α) :
    mapSet (mapSet l k v) k v = mapSet l k v := by
  induction l with
  | nil => simp [mapSet]
  | cons hd tl ih =>
    obtain ⟨k₀, v₀⟩ := hd
    by_cases h : k₀ = k
    · simp [mapSet, h]
    · simp [mapSet, h, ih]

/-- Claim C1 (code bug exhibit): the source's `VerifyClockUpdate` returns
`true` even for an update with an empty signature, and even for an update
whose signature was produced by private key 1 over timestamp 99 while the
update carries timestamp 100 and is checked against public key 2 — the
claim requires `false` in both situations. -/
theorem c1_code_accepts_bad_signatures :
    VerifyClockUpdate 1 { nodeID := "F", timestamp := 100, signature := "" } = true ∧
    VerifyClockUpdate 2
      { nodeID := "A", timestamp := 100,
        signature :=
          SignClockUpdate 1 { nodeID := "A", timestamp := 99, signature := "" } } =
      true :=
  ⟨rfl, rfl⟩

/-- Claim C2 (code bug exhibit): `VectorClock.Update` overwrites
unconditionally, so after update("A", 10) then update("A", 5) the stored
timestamp is 5, not the 10 the monotonicity claim requires; the same
regression happens through the `VerifyAndApplyClockUpdate` merge path of an
honest receiver. -/
theorem c2_update_regresses :
    ((NewVectorClock.Update "A" 10).Update "A" 5).GetTimestamp "A" = 5 ∧
    (((nodeB.VerifyAndApplyClockUpdate
          { nodeID := "A", timestamp := 10, signature := "" }).2.VerifyAndApplyClockUpdate
          { nodeID := "A", timestamp := 5, signature := "" }).2.vectorClock.GetTimestamp
        "A" = 5) := by
  constructor
  · rfl
  · rfl

/-- Claim C3 (code bug exhibit): in the canonical scenario the partition
table marks the NODES D and E (the only state the source has; no directed
edge exists), so when A propagates its update the per-receiver check
`IsPartitioned(neighborID)` skips D entirely: B and C store A's timestamp
100 but D keeps 0 — the claim requires D to receive it because the edge
A→D is open.  E receives nothing, as claimed. -/
theorem c3_propagation_skips_partitioned_receiver :
    ((mapGetOpt afterPropagation.nodes "B").map
        (fun nb => nb.vectorClock.GetTimestamp "A") = some 100) ∧
    ((mapGetOpt afterPropagation.nodes "C").map
        (fun nb => nb.vectorClock.GetTimestamp "A") = some 100) ∧
    ((mapGetOpt afterPropagation.nodes "D").map
        (fun nb => nb.vectorClock.GetTimestamp "A") = some 0) ∧
    ((mapGetOpt afterPropagation.nodes "E").map
        (fun nb => nb.vectorClock.GetTimestamp "A") = some 0) := by
  refine ⟨rfl, rfl, rfl, rfl⟩

/-- Claim C4: `minimumK(n, f)` returns `n - f + 1` whenever `0 ≤ f < n` and
fails with `InvalidParametersError` when `f ≥ n` or `f < 0`; in particular
`minimumK(7, 2) = 6`, `hasQuorum(6, 7, 2) = true` and
`hasQuorum(5, 7, 2) = false`. -/
theorem c4_minimumK_spec (n f : Int) :
    (0 ≤ f → f < n → minimumK n f = .ok (n - f + 1)) ∧
    (f ≥ n ∨ f < 0 → minimumK n f = .error .invalidParametersError) ∧
    minimumK 7 2 = .ok 6 ∧
    hasQuorum 6 7 2 = .ok true ∧
    hasQuorum 5 7 2 = .ok false := by
  refine ⟨?_, ?_, rfl, rfl, rfl⟩
  · intro h₀ h₁
    have hc : ¬(f ≥ n ∨ f < 0) := by omega
    simp [minimumK, hc]
  · intro hc
    simp [minimumK, hc]

/-- Witness for C4 at n = 7, f = 2. -/
theorem c4_minimumK_spec_witness :
    (0 : Int) ≤ 2 ∧ (2 : Int) < 7 ∧ minimumK 7 2 = .ok 6 :=
  ⟨by decide, by decide, (c4_minimumK_spec 7 2).1 (by decide) (by decide)⟩

/-- Claim C5 (code bug exhibit): on the concurrent pair {A ↦ 1} versus
{B ↦ 1} — where every map iteration order gives the same outcome — the
source's ternary `Compare` returns 1 ("greater"), while the standard
vector-clock partial order of the spec classifies the pair as CONCURRENT;
the source has no concurrent result at all. -/
theorem c5_compare_misses_concurrent :
    VectorClock.Compare ⟨[("A", 1)]⟩ ⟨[("B", 1)]⟩ = 1 ∧
    specCompare ⟨[("A", 1)]⟩ ⟨[("B", 1)]⟩ = .concurrent := by
  refine ⟨rfl, ?_⟩
  decide

/-- Claim C6 (code bug exhibit): on the pair {A ↦ 1} versus {B ↦ 1} the
source's `Compare` returns 1 ("greater") in BOTH directions — again
independent of map iteration order — so the two directions are not
inverses: A.compare(B) is not LESS (-1) although B.compare(A) is
GREATER (1). -/
theorem c6_compare_not_inverse :
    VectorClock.Compare ⟨[("A", 1)]⟩ ⟨[("B", 1)]⟩ = 1 ∧
    VectorClock.Compare ⟨[("B", 1)]⟩ ⟨[("A", 1)]⟩ = 1 ∧
    ¬((VectorClock.Compare ⟨[("A", 1)]⟩ ⟨[("B", 1)]⟩ = -1) ↔
        (VectorClock.Compare ⟨[("B", 1)]⟩ ⟨[("A", 1)]⟩ = 1)) := by
  refine ⟨rfl, rfl, ?_⟩
  decide

/-- Claim C7: merging the same `ClockUpdate` twice leaves the clock in the
same state as merging it once — `VectorClock.Update` writes the same
key-value binding, and rewriting an existing binding in place is a no-op. -/
theorem c7_update_idempotent (vc : VectorClock) (u : ClockUpdate) :
    (vc.Update u.nodeID u.timestamp).Update u.nodeID u.timestamp =
      vc.Update u.nodeID u.timestamp := by
  unfold VectorClock.Update
  exact congrArg VectorClock.mk (mapSet_idem vc.timestamps u.nodeID u.timestamp)

/-- Claim C8 (counterexample): adding a second node with the already
registered ID "A" neither fails (AddNode has no error return at all) nor
leaves the existing registration unchanged — the registry afterwards holds
the NEW node, which differs from the original. -/
theorem c8_counterexample :
    mapGetOpt
        ((NewSystem.AddNode (NewNode "A" false false 1 1)).AddNode
          (NewNode "A" false false 9 9)).nodes "A" =
      some (NewNode "A" false false 9 9) ∧
    NewNode "A" false false 9 9 ≠ NewNode "A" false false 1 1 := by
  refine ⟨rfl, ?_⟩
  decide

/-- Claim C8 (amended): `AddNode` registers the node unconditionally; the
new node is found under its ID afterwards — overwriting any previous
registration with that ID — and registrations under every other ID are
untouched.  No error is ever reported. -/
theorem c8_addNode_overwrites (s : System) (node : Node) (k : String) :
    mapGetOpt (s.AddNode node).nodes node.id = some node ∧
    (k ≠ node.id → mapGetOpt (s.AddNode node).nodes k = mapGetOpt s.nodes k) := by
  constructor
  · exact mapGetOpt_mapSet_self s.nodes node.id node
  · intro hk
    exact mapGetOpt_mapSet_ne s.nodes node.id k node hk

/-- Witness for the amended C8: registering node A in the empty system finds
A under "A" and leaves the (absent) entry "B" unchanged. -/
theorem c8_addNode_overwrites_witness :
    "B" ≠ (NewNode "A" false false 1 1).id ∧
    mapGetOpt (NewSystem.AddNode (NewNode "A" false false 1 1)).nodes "B" =
      mapGetOpt NewSystem.nodes "B" :=
  ⟨by decide,
    (c8_addNode_overwrites NewSystem (NewNode "A" false false 1 1) "B").2
      (by decide)⟩

/-- Claim C9: `GetClockUpdate` returns an update carrying the node's own ID
and the captured timestamp; a Byzantine node leaves the signature empty,
and an honest node signs exactly the canonical pair (NodeID, Timestamp)
with its private key — the signature does not depend on anything else, in
particular not on the signature field of the update being signed. -/
theorem c9_getClockUpdate (n : Node) (now : Int) :
    (GetClockUpdate n now).nodeID = n.id ∧
    (GetClockUpdate n now).timestamp = now ∧
    (GetClockUpdate n now).signature =
      (if n.isByzantine then ""
       else
        SignClockUpdate n.privateKey
          { nodeID := n.id, timestamp := now, signature := "" }) ∧
    (∀ sig : String,
      SignClockUpdate n.privateKey
          { nodeID := n.id, timestamp := now, signature := sig } =
        SignClockUpdate n.privateKey
          { nodeID := n.id, timestamp := now, signature := "" }) := by
  cases hb : n.isByzantine <;>
    exact ⟨by simp [GetClockUpdate, hb], by simp [GetClockUpdate, hb],
      by simp [GetClockUpdate, hb], fun sig => rfl⟩

/-- Claim C10: a Byzantine receiver makes `VerifyAndApplyClockUpdate`
return `false` with its state (in particular its vector clock) unchanged;
an honest receiver returns `true` and stores the update's timestamp; and
the whole outcome is independent of the update's signature field. -/
theorem c10_verifyAndApply (n : Node) (u : ClockUpdate) (sig : String) :
    (n.isByzantine = true → n.VerifyAndApplyClockUpdate u = (false, n)) ∧
    (n.isByzantine = false →
      n.VerifyAndApplyClockUpdate u =
        (true,
          { n with vectorClock := n.vectorClock.Update u.nodeID u.timestamp })) ∧
    n.VerifyAndApplyClockUpdate { u with signature := sig } =
      n.VerifyAndApplyClockUpdate u := by
  refine ⟨fun hb => ?_, fun hb => ?_, ?_⟩
  · simp [Node.VerifyAndApplyClockUpdate, hb]
  · simp [Node.VerifyAndApplyClockUpdate, hb]
  · cases hb : n.isByzantine <;> simp [Node.VerifyAndApplyClockUpdate, hb]

/-- Witness for C10: a concrete Byzantine receiver rejects a concrete update
and keeps its state; a concrete honest receiver applies it. -/
theorem c10_verifyAndApply_witness :
    (NewNode "F" true false 6 6).isByzantine = true ∧
    (NewNode "F" true false 6 6).VerifyAndApplyClockUpdate
        { nodeID := "A", timestamp := 5, signature := "" } =
      (false, NewNode "F" true false 6 6) :=
  ⟨rfl,
    (c10_verifyAndApply (NewNode "F" true false 6 6)
        { nodeID := "A", timestamp := 5, signature := "" } "x").1 rfl⟩

end BFT
